import Mathlib

/-!
Shallow embedding of the C++ template under templates/cpp/cpp-cli:
the library functions in src/hello.cpp, the demo entry point in
src/main.cpp, and the hand-rolled test harness in tests/test_hello.cpp.
Preprocessor configuration (the build-mode macros DEBUG_BUILD and
RELEASE_BUILD, and the compiler-identity macros) is modelled as an
explicit record of compile-time values; writes to standard output are
modelled as lists of lines or as the written string.
-/

namespace hello

/-- Embeds hello::get_greeting from src/hello.cpp:
returns "Hello, " + name + " from C++! 🚀". -/
def get_greeting (name : String) : String :=
  "Hello, " ++ name ++ " from C++! 🚀"

/-- Embeds the call of get_greeting with no argument: the declaration in
include/hello.hpp gives the parameter the default value "World". -/
def get_greeting_default : String :=
  get_greeting "World"

/-- Embeds the for-loop of hello::print_count: starting at index i,
while i < count, emit the line "Count: " followed by i, then increment i. -/
def countLoop (count i : Int) : List String :=
  if h : i < count then
    ("Count: " ++ toString i) :: countLoop count (i + 1)
  else
    []
termination_by (count - i).toNat
decreasing_by
  omega

/-- Embeds hello::print_count from src/hello.cpp as the list of lines it
writes to standard output: the header line, then the loop starting at 0. -/
def print_count (count : Int) : List String :=
  "Counting demonstration:" :: countLoop count 0

/-- The compile-time configuration consumed by hello::get_build_info:
whether DEBUG_BUILD or RELEASE_BUILD was defined, whether the compiler
defines the Clang or the GNU identity macros, the version-number macros,
and the value of the __cplusplus macro. -/
structure BuildConfig where
  debug_build : Bool
  release_build : Bool
  is_clang : Bool
  is_gnuc : Bool
  clang_major : Nat
  clang_minor : Nat
  gnuc_major : Nat
  gnuc_minor : Nat
  cplusplus : Nat

/-- The text chosen by the DEBUG_BUILD branch of get_build_info. -/
def debugModeLine : String := "🔧 Running DEBUG build (dev mode)"

/-- The text chosen by the RELEASE_BUILD branch of get_build_info. -/
def releaseModeLine : String := "🚀 Running RELEASE build (optimized)"

/-- The fallback text of get_build_info when neither DEBUG_BUILD nor
RELEASE_BUILD was defined. -/
def standardModeLine : String := "📦 Standard build"

/-- Embeds the first conditional block of hello::get_build_info:
ifdef DEBUG_BUILD, elif defined(RELEASE_BUILD), else the standard text. -/
def buildModeLine (c : BuildConfig) : String :=
  if c.debug_build then debugModeLine
  else if c.release_build then releaseModeLine
  else standardModeLine

/-- Embeds the second conditional block of hello::get_build_info:
ifdef clang print "Clang major.minor", elif defined GNUC print
"GCC major.minor", else the unknown-compiler fallback. -/
def compilerLine (c : BuildConfig) : String :=
  if c.is_clang then
    "Clang " ++ toString c.clang_major ++ "." ++ toString c.clang_minor
  else if c.is_gnuc then
    "GCC " ++ toString c.gnuc_major ++ "." ++ toString c.gnuc_minor
  else
    "Unknown compiler"

/-- Embeds hello::get_build_info from src/hello.cpp: the string assembled
in the ostringstream, as a function of the compile-time configuration. -/
def get_build_info (c : BuildConfig) : String :=
  buildModeLine c ++ "\nCompiler: " ++ compilerLine c
    ++ "\nC++ Standard: " ++ toString c.cplusplus

end hello

/-- Models std::string::find(sub) != npos: sub occurs contiguously in s. -/
def findsSubstring (s sub : String) : Bool :=
  decide (sub.data <:+: s.data)

/-- The two global tally counters of tests/test_hello.cpp. -/
structure TestState where
  test_count : Nat
  test_passed : Nat

/-- The counters at program start: both initialized to 0. -/
def initState : TestState :=
  { test_count := 0, test_passed := 0 }

/-- Embeds test_assert from tests/test_hello.cpp: increment test_count,
and when the condition holds increment test_passed and emit a PASS line,
otherwise emit a FAIL line. Returns the new tally and the line printed. -/
def test_assert (condition : Bool) (test_name : String) (s : TestState) :
    TestState × String :=
  ({ test_count := s.test_count + 1,
     test_passed := if condition then s.test_passed + 1 else s.test_passed },
   if condition then "✅ PASS: " ++ test_name else "❌ FAIL: " ++ test_name)

/-- The fixed sequence of checks performed by main in tests/test_hello.cpp:
each entry is the asserted condition paired with the check's label. -/
def testChecks (c : hello.BuildConfig) : List (Bool × String) :=
  [ (findsSubstring (hello.get_greeting "Test") "Hello, Test",
      "get_greeting should contain 'Hello, Test'"),
    (findsSubstring (hello.get_greeting "Test") "C++",
      "get_greeting should contain 'C++'"),
    (findsSubstring hello.get_greeting_default "World",
      "default greeting should contain 'World'"),
    (!(hello.get_build_info c).isEmpty, "build_info should not be empty"),
    (findsSubstring (hello.get_build_info c) "build",
      "build_info should contain 'build'") ]

/-- Runs a sequence of checks through test_assert, threading the tally. -/
def runChecks (s : TestState) (cs : List (Bool × String)) : TestState :=
  cs.foldl (fun st c => (test_assert c.1 c.2 st).1) s

/-- The tally after main in tests/test_hello.cpp has run all its checks. -/
def testMainState (c : hello.BuildConfig) : TestState :=
  runChecks initState (testChecks c)

/-- Embeds the return value of main in tests/test_hello.cpp:
0 when test_passed == test_count, otherwise 1. -/
def testMainExit (c : hello.BuildConfig) : Int :=
  if (testMainState c).test_passed = (testMainState c).test_count then 0 else 1

/-- Concatenates a list of output lines into the written stream text,
each line followed by a newline. -/
def linesOut (ls : List String) : String :=
  ls.foldr (fun l acc => l ++ "\n" ++ acc) ""

/-- Embeds the standard-output text written by main in src/main.cpp:
the greeting for "World" and endl, the fixed descriptive line and endl,
the build info, "\n" and endl, then print_count with its default count 5. -/
def mainOutput (c : hello.BuildConfig) : String :=
  (hello.get_greeting "World" ++ "\n")
    ++ ("This is a C++ console application created with nix-polyglot.\n" ++ "\n")
    ++ (hello.get_build_info c ++ "\n" ++ "\n")
    ++ linesOut (hello.print_count 5)

/-- Embeds the return value of main in src/main.cpp: always 0. -/
def mainExit (_c : hello.BuildConfig) : Int := 0

/-- A sample compile-time configuration: neither DEBUG_BUILD nor
RELEASE_BUILD defined, unknown compiler, C++17. -/
def cfgStd : hello.BuildConfig :=
  ⟨false, false, false, false, 0, 0, 0, 0, 201703⟩

/-- A sample compile-time configuration for a Clang 17.0 build. -/
def cfgClang : hello.BuildConfig :=
  ⟨false, false, true, false, 17, 0, 0, 0, 201703⟩

namespace hello

/-- The loop of print_count produces, for each offset k below the number of
remaining iterations, the line for index i + k, in increasing order. -/
theorem countLoop_eq_range (count i : Int) :
    countLoop count i =
      (List.range (count - i).toNat).map
        (fun k : Nat => "Count: " ++ toString (i + (k : Int))) := by
  refine countLoop.induct count
    (fun j : Int => countLoop count j =
      (List.range (count - j).toNat).map
        (fun k : Nat => "Count: " ++ toString (j + (k : Int)))) ?_ ?_ i
  · intro x hx ih
    rw [countLoop, dif_pos hx, ih]
    have hn : (count - x).toNat = (count - (x + 1)).toNat + 1 := by omega
    rw [hn, List.range_succ_eq_map]
    simp only [List.map_cons, List.map_map, List.cons.injEq]
    refine ⟨by norm_num, ?_⟩
    apply List.map_congr_left
    intro k _
    have hk : x + 1 + (k : Int) = x + ((k : Int) + 1) := by ring
    simp [Function.comp, hk]
  · intro x hx
    rw [countLoop, dif_neg hx]
    have hn : (count - x).toNat = 0 := by omega
    simp [hn]

/-- Evaluated form of print_count: the header line followed by one body
line per index below max(count, 0), in increasing index order. -/
theorem print_count_eq_range (count : Int) :
    print_count count =
      "Counting demonstration:" ::
        (List.range count.toNat).map
          (fun k : Nat => "Count: " ++ toString (k : Int)) := by
  rw [print_count, countLoop_eq_range]
  simp

end hello

/-- Decomposition of the build-info string at the character-list level. -/
theorem get_build_info_data (c : hello.BuildConfig) :
    (hello.get_build_info c).data =
      (hello.buildModeLine c).data ++ "\nCompiler: ".data
        ++ (hello.compilerLine c).data ++ "\nC++ Standard: ".data
        ++ (toString c.cplusplus).data := by
  simp [hello.get_build_info, String.data_append]

/-- C1: for every non-negative count C, print_count writes the header line
first, then exactly C body lines, the line at zero-based position i being
the fixed label followed by index i, for i from 0 to C-1 in order. -/
theorem print_count_header_and_body (C : Nat) :
    (hello.print_count (C : Int)).head? = some "Counting demonstration:" ∧
    (hello.print_count (C : Int)).tail.length = C ∧
    ∀ i : Nat, i < C →
      (hello.print_count (C : Int)).tail.get? i
        = some ("Count: " ++ toString (i : Int)) := by
  rw [hello.print_count_eq_range]
  refine ⟨rfl, by simp, ?_⟩
  intro i hi
  simp [List.get?_map, List.get?_range, hi]

/-- Witness for C1: at count 5, the header is first, there are 5 body
lines, and the body line at position 2 carries index 2. -/
theorem print_count_header_and_body_witness :
    (hello.print_count ((5 : Nat) : Int)).head? = some "Counting demonstration:" ∧
    (hello.print_count ((5 : Nat) : Int)).tail.length = 5 ∧
    (hello.print_count ((5 : Nat) : Int)).tail.get? 2
      = some ("Count: " ++ toString ((2 : Nat) : Int)) :=
  ⟨(print_count_header_and_body 5).1,
   (print_count_header_and_body 5).2.1,
   (print_count_header_and_body 5).2.2 2 (by decide)⟩

/-- C10: print_count is total over every integer input; for a negative
count the loop is never entered, so only the header line is written. -/
theorem print_count_negative (count : Int) (h : count < 0) :
    hello.print_count count = ["Counting demonstration:"] := by
  rw [hello.print_count_eq_range]
  have h0 : count.toNat = 0 := by omega
  simp [h0]

/-- Witness for C10: print_count at -3 writes only the header line. -/
theorem print_count_negative_witness :
    hello.print_count (-3) = ["Counting demonstration:"] :=
  print_count_negative (-3) (by decide)

/-- C9: get_greeting returns exactly "Hello, " ++ N ++ " from C++! 🚀";
in particular the result always starts with "Hello, " and always ends
with the fixed suffix, whatever N is. -/
theorem get_greeting_exact (N : String) :
    hello.get_greeting N = "Hello, " ++ N ++ " from C++! 🚀" ∧
    "Hello, ".data <+: (hello.get_greeting N).data ∧
    " from C++! 🚀".data <:+ (hello.get_greeting N).data := by
  refine ⟨rfl, ⟨(N ++ " from C++! 🚀").data, ?_⟩, ⟨("Hello, " ++ N).data, ?_⟩⟩
  · simp [hello.get_greeting, String.data_append]
  · simp [hello.get_greeting, String.data_append]

/-- C4: the greeting for any name N, the empty string included, contains
N as a substring and contains the fixed identity marker "C++". -/
theorem get_greeting_contains (N : String) :
    N.data <:+: (hello.get_greeting N).data ∧
    "C++".data <:+: (hello.get_greeting N).data := by
  constructor
  · exact ⟨"Hello, ".data, " from C++! 🚀".data,
      by simp [hello.get_greeting, String.data_append]⟩
  · have h1 : "C++".data <:+: " from C++! 🚀".data := by decide
    have h2 : " from C++! 🚀".data <:+ (hello.get_greeting N).data :=
      ⟨("Hello, " ++ N).data, by simp [hello.get_greeting, String.data_append]⟩
    exact h1.trans h2.isInfix

/-- C7: the greeting produced by the no-argument call of get_greeting
contains the default placeholder "World". -/
theorem default_greeting_contains_World :
    "World".data <:+: hello.get_greeting_default.data :=
  ⟨"Hello, ".data, " from C++! 🚀".data, by decide⟩

/-- C3: the build-info string is never empty, starts with the build-mode
label, the label is exactly one of the debug, release and standard texts
(the three being pairwise distinct), and the standard text is chosen
precisely when neither DEBUG_BUILD nor RELEASE_BUILD was selected. -/
theorem build_mode_label (c : hello.BuildConfig) :
    hello.get_build_info c ≠ "" ∧
    (hello.buildModeLine c).data <+: (hello.get_build_info c).data ∧
    (hello.buildModeLine c = hello.debugModeLine ∨
      hello.buildModeLine c = hello.releaseModeLine ∨
      hello.buildModeLine c = hello.standardModeLine) ∧
    hello.debugModeLine ≠ hello.releaseModeLine ∧
    hello.debugModeLine ≠ hello.standardModeLine ∧
    hello.releaseModeLine ≠ hello.standardModeLine ∧
    (hello.buildModeLine c = hello.standardModeLine ↔
      c.debug_build = false ∧ c.release_build = false) := by
  have hpre : (hello.buildModeLine c).data <+: (hello.get_build_info c).data := by
    refine ⟨"\nCompiler: ".data ++ (hello.compilerLine c).data
      ++ "\nC++ Standard: ".data ++ (toString c.cplusplus).data, ?_⟩
    rw [get_build_info_data]
    simp [List.append_assoc]
  have hmode : (hello.buildModeLine c).data ≠ [] := by
    cases hd : c.debug_build <;> cases hr : c.release_build <;>
      simp [hello.buildModeLine, hd, hr] <;> decide
  have hne : hello.get_build_info c ≠ "" := by
    intro h
    rw [h] at hpre
    exact hmode (List.prefix_nil.mp hpre)
  have hmem : hello.buildModeLine c = hello.debugModeLine ∨
      hello.buildModeLine c = hello.releaseModeLine ∨
      hello.buildModeLine c = hello.standardModeLine := by
    by_cases hd : c.debug_build <;> by_cases hr : c.release_build <;>
      simp [hello.buildModeLine, hd, hr]
  have hiff : hello.buildModeLine c = hello.standardModeLine ↔
      c.debug_build = false ∧ c.release_build = false := by
    by_cases hd : c.debug_build <;> by_cases hr : c.release_build <;>
      simp [hello.buildModeLine, hd, hr] <;> decide
  exact ⟨hne, hpre, hmem, by decide, by decide, by decide, hiff⟩

/-- C6: the compiler-identity part of the build info names Clang with its
major and minor version when the Clang macro is set, GCC with its major
and minor version when only the GNU macro is set, and otherwise falls back
to the fixed unknown-compiler text; it always occurs in the build info. -/
theorem compiler_identity (c : hello.BuildConfig) :
    (c.is_clang = true →
      hello.compilerLine c =
        "Clang " ++ toString c.clang_major ++ "." ++ toString c.clang_minor) ∧
    (c.is_clang = false → c.is_gnuc = true →
      hello.compilerLine c =
        "GCC " ++ toString c.gnuc_major ++ "." ++ toString c.gnuc_minor) ∧
    (c.is_clang = false → c.is_gnuc = false →
      hello.compilerLine c = "Unknown compiler") ∧
    ("Compiler: " ++ hello.compilerLine c).data
      <:+: (hello.get_build_info c).data := by
  refine ⟨?_, ?_, ?_, ?_⟩
  · intro h; simp [hello.compilerLine, h]
  · intro h1 h2; simp [hello.compilerLine, h1, h2]
  · intro h1 h2; simp [hello.compilerLine, h1, h2]
  · refine ⟨(hello.buildModeLine c).data ++ ['\n'],
      "\nC++ Standard: ".data ++ (toString c.cplusplus).data, ?_⟩
    rw [get_build_info_data]
    have hnc : ("\nCompiler: ".data : List Char) = '\n' :: "Compiler: ".data := by
      decide
    rw [hnc]
    simp [String.data_append, List.append_assoc]

/-- Witness for C6: in the Clang 17.0 sample configuration the compiler
line is "Clang 17.0", and in the unknown-compiler sample configuration it
is the fallback text. -/
theorem compiler_identity_witness :
    hello.compilerLine cfgClang = "Clang 17.0" ∧
    hello.compilerLine cfgStd = "Unknown compiler" :=
  ⟨(compiler_identity cfgClang).1 rfl,
   (compiler_identity cfgStd).2.2.1 rfl rfl⟩

/-- Unfolding of runChecks over the first check of a sequence. -/
theorem runChecks_cons (s : TestState) (c : Bool × String)
    (cs : List (Bool × String)) :
    runChecks s (c :: cs) = runChecks (test_assert c.1 c.2 s).1 cs := rfl

/-- Every check in the sequence is counted: runChecks adds the length of
the sequence to test_count, whatever the individual conditions are. -/
theorem runChecks_count (cs : List (Bool × String)) :
    ∀ s : TestState, (runChecks s cs).test_count = s.test_count + cs.length := by
  induction cs with
  | nil => intro s; rfl
  | cons hd tl ih =>
    intro s
    rw [runChecks_cons, ih]
    simp [test_assert]
    omega

/-- runChecks preserves the tally invariant passed ≤ run. -/
theorem runChecks_le (cs : List (Bool × String)) :
    ∀ s : TestState, s.test_passed ≤ s.test_count →
      (runChecks s cs).test_passed ≤ (runChecks s cs).test_count := by
  induction cs with
  | nil => intro s h; exact h
  | cons hd tl ih =>
    intro s h
    rw [runChecks_cons]
    apply ih
    cases hc : hd.1 <;> simp [test_assert, hc] <;> omega

/-- C2: each test_assert call increments the run count by one and the
passed count by one exactly when the condition holds; after any prefix of
the fixed check sequence, passed ≤ run and passed + (run − passed) = run;
and the full sequence always counts every check, so a failure never stops
the later checks. -/
theorem test_harness_tally (cfg : hello.BuildConfig)
    (pre suf : List (Bool × String)) (h : testChecks cfg = pre ++ suf) :
    (∀ (b : Bool) (nm : String) (s : TestState),
        (test_assert b nm s).1.test_count = s.test_count + 1 ∧
        (test_assert b nm s).1.test_passed
          = s.test_passed + (if b then 1 else 0)) ∧
    (runChecks initState pre).test_passed
        ≤ (runChecks initState pre).test_count ∧
    (runChecks initState pre).test_passed
        + ((runChecks initState pre).test_count
            - (runChecks initState pre).test_passed)
      = (runChecks initState pre).test_count ∧
    (runChecks initState (testChecks cfg)).test_count
      = pre.length + suf.length := by
  have hle : (runChecks initState pre).test_passed
      ≤ (runChecks initState pre).test_count :=
    runChecks_le pre initState (by simp [initState])
  refine ⟨?_, hle, by omega, ?_⟩
  · intro b nm s
    cases b <;> simp [test_assert]
  · rw [h, runChecks_count]
    simp [initState]

/-- Witness for C2: splitting the check sequence of the sample
configuration after two checks, the prefix tally satisfies passed ≤ run,
and the whole sequence runs all five checks. -/
theorem test_harness_tally_witness :
    (runChecks initState ((testChecks cfgStd).take 2)).test_passed
        ≤ (runChecks initState ((testChecks cfgStd).take 2)).test_count ∧
    (runChecks initState (testChecks cfgStd)).test_count
      = ((testChecks cfgStd).take 2).length
          + ((testChecks cfgStd).drop 2).length :=
  ⟨(test_harness_tally cfgStd ((testChecks cfgStd).take 2)
      ((testChecks cfgStd).drop 2) (List.take_append_drop 2 _).symm).2.1,
   (test_harness_tally cfgStd ((testChecks cfgStd).take 2)
      ((testChecks cfgStd).drop 2) (List.take_append_drop 2 _).symm).2.2.2⟩

/-- C5: the test harness exits with status 0 exactly when the passed count
equals the run count after all checks; otherwise it exits with status 1. -/
theorem test_exit_status (cfg : hello.BuildConfig) :
    (testMainExit cfg = 0 ↔
      (testMainState cfg).test_passed = (testMainState cfg).test_count) ∧
    ((testMainState cfg).test_passed ≠ (testMainState cfg).test_count →
      testMainExit cfg = 1) := by
  constructor
  · constructor
    · intro h0
      by_contra hne
      simp [testMainExit, hne] at h0
    · intro he
      simp [testMainExit, he]
  · intro hne
    simp [testMainExit, hne]

/-- Witness for C5: in the sample configuration every check passes, so the
exit status is 0. -/
theorem test_exit_status_witness : testMainExit cfgStd = 0 :=
  (test_exit_status cfgStd).1.mpr (by decide)

/-- C8: the demo entry point always returns exit status 0, and its output
is the fixed sequence: the greeting for "World", the descriptive line, the
build info, then the counter demonstration with the default count 5. -/
theorem main_sequence (c : hello.BuildConfig) :
    mainExit c = 0 ∧
    mainOutput c =
      "Hello, World from C++! 🚀\nThis is a C++ console application created with nix-polyglot.\n\n"
        ++ (hello.get_build_info c ++ "\n" ++ "\n")
        ++ "Counting demonstration:\nCount: 0\nCount: 1\nCount: 2\nCount: 3\nCount: 4\n" := by
  refine ⟨rfl, ?_⟩
  show (hello.get_greeting "World" ++ "\n")
      ++ ("This is a C++ console application created with nix-polyglot.\n" ++ "\n")
      ++ (hello.get_build_info c ++ "\n" ++ "\n")
      ++ linesOut (hello.print_count 5) = _
  rw [hello.print_count_eq_range]
  rfl
